import Mathlib

/-!
Verification of the twirp-rs binding generator and test fixtures.

The development shallowly embeds the two source files of the repository:

* `crates/twirp-build/src/lib.rs` — the `ServiceGenerator::generate`
  function, a pure text emitter over a protobuf service description.
  Every emitted `writeln!` is reproduced below as a string concatenation,
  in source order, so that each definition can be diffed line by line
  against the Rust code.
* `crates/twirp/src/test.rs` — the hand-written fixture server, router
  registration and client for the two-method `test.TestAPI` service.

Types that live in the repository but outside the provided sources
(the twirp runtime crate: Router internals, TwirpErrorResponse, the
`internal` constructor, TwirpClientError) are modelled from the spec and
are marked as such in their doc comments.
-/

/-- Method descriptor: the fields of `prost_build::Method` read by the
generator (`name`, `proto_name`, `input_type`, `output_type`). -/
structure Method where
  name : String
  proto_name : String
  input_type : String
  output_type : String
deriving DecidableEq

/-- Service descriptor: the fields of `prost_build::Service` read by the
generator (`name`, `package`, `proto_name`, `methods`). -/
structure Service where
  name : String
  package : String
  proto_name : String
  methods : List Method
deriving DecidableEq

/-- Concatenation of the text emitted by a per-method `writeln!` loop,
in method order. -/
def cat (l : List String) : String := l.foldr (fun a b => a ++ b) ""

/-- Line emitted when `async_trait_shim` is set (lib.rs lines 50-52 and
the three analogous sites). -/
def shim_line (b : Bool) : String :=
  if b then "#[twirp::async_trait::async_trait]\n" else ""

/-- lib.rs line 40: `let service_fqn = format!("{}.{}", service.package,
service.proto_name)`. -/
def service_fqn (s : Service) : String := s.package ++ "." ++ s.proto_name

/-- Value of the emitted SERVICE_FQN constant (lib.rs line 45): the
string literal placed between the quotes is `/{service_fqn}`. -/
def SERVICE_FQN_value (s : Service) : String := "/" ++ service_fqn s

/-- lib.rs line 45: the `pub const SERVICE_FQN` line. -/
def const_line (s : Service) : String :=
  "pub const SERVICE_FQN: &str = \"" ++ SERVICE_FQN_value s ++ "\";\n"

/-- lib.rs lines 41-45: blank line, `pub use twirp;`, blank line, const. -/
def gen_head (s : Service) : String :=
  "\n" ++ "pub use twirp;\n" ++ "\n" ++ const_line s

/-- lib.rs lines 55-60: one server-trait method signature. -/
def trait_method_line (m : Method) : String :=
  "    async fn " ++ m.name ++ "(&self, ctx: twirp::Context, req: " ++ m.input_type
    ++ ") -> Result<" ++ m.output_type ++ ", twirp::TwirpErrorResponse>;\n"

/-- lib.rs lines 50-62: the server capability trait. -/
def server_trait (shim : Bool) (s : Service) : String :=
  shim_line shim ++ "pub trait " ++ s.name ++ " \x7b\n"
    ++ cat (s.methods.map trait_method_line) ++ "\x7d\n"

/-- lib.rs lines 72-77: signature line of one Arc-wrapper method. -/
def arc_sig_line (m : Method) : String :=
  "    async fn " ++ m.name ++ "(&self, ctx: twirp::Context, req: " ++ m.input_type
    ++ ") -> Result<" ++ m.output_type ++ ", twirp::TwirpErrorResponse> \x7b\n"

/-- lib.rs lines 71-80: one method of the Arc delegation wrapper; the
body (line 78) is `(*self).{name}(ctx, req).await`. -/
def arc_method_block (m : Method) : String :=
  arc_sig_line m
    ++ "        (*self)." ++ m.name ++ "(ctx, req).await\n"
    ++ "    \x7d\n"

/-- lib.rs lines 64-81: the `impl<T> {name} for std::sync::Arc<T>` block. -/
def arc_impl (shim : Bool) (s : Service) : String :=
  shim_line shim
    ++ "impl<T> " ++ s.name ++ " for std::sync::Arc<T>\n"
    ++ "where\n"
    ++ "    T: " ++ s.name ++ " + Sync + Send\n"
    ++ "\x7b\n"
    ++ cat (s.methods.map arc_method_block)
    ++ "\x7d\n"

/-- lib.rs lines 93-99: the path argument of the emitted `.route` call is
`"/{uri}"` where `uri = m.proto_name`. -/
def route_path_arg (m : Method) : String := "/" ++ m.proto_name

/-- lib.rs lines 99-101: remainder of the `.route` call after the path. -/
def route_line_tail (m : Method) : String :=
  "|api: T, ctx: twirp::Context, req: " ++ m.input_type ++ "| async move \x7b\n"
    ++ "            api." ++ m.name ++ "(ctx, req).await\n"
    ++ "        \x7d)\n"

/-- lib.rs lines 93-104: one emitted `.route` registration. -/
def route_line (m : Method) : String :=
  "        " ++ ".route(\"" ++ route_path_arg m ++ "\", " ++ route_line_tail m

/-- lib.rs lines 84-92: the head of the emitted router function. -/
def router_header (s : Service) : String :=
  "pub fn router<T>(api: T) -> twirp::Router\n"
    ++ "where\n"
    ++ "    T: " ++ s.name ++ " + Clone + Send + Sync + \x27static,\n"
    ++ "\x7b\n"
    ++ "    twirp::details::TwirpRouterBuilder::new(api)\n"

/-- lib.rs lines 105-111: the tail of the emitted router function. -/
def router_footer : String := "\n        .build()\n\x7d\n"

/-- lib.rs lines 84-111: the full emitted router-construction function. -/
def router_fn (s : Service) : String :=
  router_header s ++ cat (s.methods.map route_line) ++ router_footer

/-- lib.rs lines 125-133: one client-trait method signature. -/
def client_trait_line (m : Method) : String :=
  "    async fn " ++ m.name ++ "(&self, req: " ++ m.input_type ++ ") -> Result<"
    ++ m.output_type ++ ", twirp::ClientError>;\n"

/-- lib.rs lines 117-134: the client capability trait. -/
def client_trait (shim : Bool) (s : Service) : String :=
  shim_line shim
    ++ "pub trait " ++ s.name ++ "Client: Send + Sync + std::fmt::Debug \x7b\n"
    ++ cat (s.methods.map client_trait_line)
    ++ "\x7d\n"

/-- lib.rs lines 153-158: the path argument of the emitted
`self.request` call is `"{service_fqn}/{proto_name}"`, with no leading
slash (the slash at lib.rs line 45 is added only inside the SERVICE_FQN
constant, which is not used here). -/
def client_request_path (s : Service) (m : Method) : String :=
  service_fqn s ++ "/" ++ m.proto_name

/-- lib.rs lines 147-152: signature line of one client-impl method. -/
def client_sig_line (m : Method) : String :=
  "    async fn " ++ m.name ++ "(&self, req: " ++ m.input_type ++ ") -> Result<"
    ++ m.output_type ++ ", twirp::ClientError> \x7b\n"

/-- lib.rs lines 153-158: the emitted `self.request` line. -/
def request_line (s : Service) (m : Method) : String :=
  "    self.request(\"" ++ client_request_path s m ++ "\", req).await\n"

/-- lib.rs lines 145-160: one method of the client implementation. -/
def client_method_block (s : Service) (m : Method) : String :=
  client_sig_line m ++ request_line s m ++ "    \x7d\n"

/-- lib.rs lines 136-161: the `impl {name}Client for twirp::client::Client`
block. -/
def client_impl (shim : Bool) (s : Service) : String :=
  shim_line shim
    ++ "impl " ++ s.name ++ "Client for twirp::client::Client \x7b\n"
    ++ cat (s.methods.map (client_method_block s))
    ++ "\x7d\n"

/-- lib.rs lines 38-162, `ServiceGenerator::generate`: the full text the
generator appends to the output buffer, as a pure function of the
`async_trait_shim` flag and the service description. -/
def generate (shim : Bool) (s : Service) : String :=
  gen_head s ++ server_trait shim s ++ arc_impl shim s ++ router_fn s
    ++ "\n" ++ client_trait shim s ++ client_impl shim s

/-- State of the output buffer after `generate` runs: the Rust function
receives `buf: &mut String` and only ever appends to it. -/
def generate_into (buf : String) (shim : Bool) (s : Service) : String :=
  buf ++ generate shim s

/-- Fixture method Ping of test.rs (rust name `ping`, wire name `Ping`). -/
def ping_method : Method :=
  { name := "ping", proto_name := "Ping",
    input_type := "PingRequest", output_type := "PingResponse" }

/-- Fixture method Boom of test.rs (rust name `boom`, wire name `Boom`). -/
def boom_method : Method :=
  { name := "boom", proto_name := "Boom",
    input_type := "PingRequest", output_type := "PingResponse" }

/-- The fixture service `test.TestAPI` of test.rs. -/
def test_service : Service :=
  { name := "TestAPI", package := "test", proto_name := "TestAPI",
    methods := [ping_method, boom_method] }

/-- A second, field-identical copy of the fixture service, used to state
determinism across two independently built inputs. -/
def test_service_copy : Service :=
  { name := "TestAPI", package := "test", proto_name := "TestAPI",
    methods := [ping_method, boom_method] }

/-- A method sharing the wire name `Ping` of `ping_method` under a
different rust name: its route path collides with the one of
`ping_method`. -/
def dup_method : Method :=
  { name := "ping2", proto_name := "Ping",
    input_type := "PingRequest", output_type := "PingResponse" }

/-- A malformed service description: two methods with equal wire names. -/
def dup_service : Service :=
  { name := "TestAPI", package := "test", proto_name := "TestAPI",
    methods := [ping_method, dup_method] }

/-- Message type of test.rs lines 129-136. -/
structure PingRequest where
  name : String
deriving DecidableEq

/-- Message type of test.rs lines 138-145. -/
structure PingResponse where
  name : String
deriving DecidableEq

/-- Modelled from the spec: the enumerated error codes of the ServerError
model (section 4.4); the error module of the twirp crate is not among the
provided sources. -/
inductive ErrorCode where
  | invalid_argument
  | unauthenticated
  | permission_denied
  | not_found
  | internal
  | unimplemented
deriving DecidableEq

/-- Modelled from the spec: ServerError / TwirpErrorResponse, the
structured failure value `{ code, msg, meta }` of sections 3 and 6; the
error module of the twirp crate is not among the provided sources. -/
structure TwirpErrorResponse where
  code : ErrorCode
  msg : String
  meta : List (String × String)
deriving DecidableEq

/-- Modelled from the spec: the convenience constructor per error code
(section 4.4) building a ServerError with that code and a caller-supplied
message; test.rs line 76 calls the one for the `internal` code. -/
def internal (msg : String) : TwirpErrorResponse :=
  { code := ErrorCode.internal, msg := msg, meta := [] }

/-- test.rs lines 71-73: the fixture server Ping handler. -/
def TestAPIServer.ping (req : PingRequest) : Except TwirpErrorResponse PingResponse :=
  Except.ok { name := req.name }

/-- test.rs lines 75-77: the fixture server Boom handler. -/
def TestAPIServer.boom (_req : PingRequest) : Except TwirpErrorResponse PingResponse :=
  Except.error (internal "boom!")

/-- Modelled from the spec: the Router of the twirp crate (not among the
provided sources) is a path-keyed dispatch table built by registering one
path/handler entry at a time (section 4.2). Handlers are specialised to
the message types of the fixture service. -/
structure Router where
  routes : List (String × (PingRequest → Except TwirpErrorResponse PingResponse))

/-- Modelled from the spec: the empty router (`Router::default()` in
test.rs line 14). -/
def Router.default : Router := { routes := [] }

/-- Modelled from the spec: `add_method` registers one route entry
(section 4.2, used at test.rs lines 18 and 24). -/
def Router.add_method (r : Router) (path : String)
    (handler : PingRequest → Except TwirpErrorResponse PingResponse) : Router :=
  { routes := r.routes ++ [(path, handler)] }

/-- The list of registered paths of a router, in registration order. -/
def Router.paths (r : Router) : List String := r.routes.map Prod.fst

/-- Modelled from the spec: dispatch looks the path up by exact string
match and invokes the bound handler; an absent path yields no handler
invocation (section 4.2). -/
def Router.dispatch (r : Router) (path : String) (req : PingRequest) :
    Option (Except TwirpErrorResponse PingResponse) :=
  match r.routes.find? (fun e => e.fst == path) with
  | some e => some (e.snd req)
  | none => none

/-- test.rs lines 12-30, `test_api_router`: the hand-written fixture
router, registering Ping and Boom with the literal paths of lines 18
and 24; each handler forwards to the corresponding server method. -/
def test_api_router : Router :=
  (Router.default.add_method "/twirp/test.TestAPI/Ping"
      (fun req => TestAPIServer.ping req)).add_method "/twirp/test.TestAPI/Boom"
      (fun req => TestAPIServer.boom req)

/-- Modelled from the spec: ClientError / TwirpClientError, the tagged
union of section 3; the client module of the twirp crate is not among the
provided sources. -/
inductive TwirpClientError where
  | transport (cause : String)
  | bad_status (status : Nat) (error : TwirpErrorResponse)
  | decode (cause : String)
  | build_request (cause : String)

/-- Outcome of a fixture client call: a value, an error value, or a
rust panic (the outcome of executing a todo marker). -/
inductive ClientCallOutcome (α : Type) where
  | ok (value : α)
  | err (e : TwirpClientError)
  | panicked (message : String)

/-- test.rs lines 118-120: the body of the fixture client boom method is
the todo macro, which panics with the message below instead of producing
a Result. -/
def TwirpClient.boom (_req : PingRequest) : ClientCallOutcome PingResponse :=
  ClientCallOutcome.panicked "not yet implemented"

/-- test.rs line 85: the relative path string passed to the url join in
`ping_url`, with a lowercase t in testAPI. -/
def ping_url_relative : String := "twirp/test.testAPI/Ping"

/-- Join of a base URL whose path is the root with a relative path, per
the documented semantics of the external url library used at test.rs
line 85: the resulting path is the root slash followed by the relative
path. -/
def join_at_root (rel : String) : String := "/" ++ rel

/-- The path component of the URL `ping_url` builds from a base URL with
root path (test.rs lines 84-87). -/
def ping_url_path : String := join_at_root ping_url_relative

/-- Execution of the generated Arc delegation wrapper method emitted by
`arc_method_block`. The emitted body is `(*self).{name}(ctx, req).await`
where `self: &std::sync::Arc<T>`, so `*self` has type `Arc<T>`; rust
method resolution autorefs the receiver to `&Arc<T>`, which matches the
`impl<T> {name} for Arc<T>` being generated before any deref down to `T`,
so the body invokes the wrapper method itself and the call never reaches
the underlying implementation `direct`. The recursion is modelled with a
fuel parameter: `none` means that no result has been produced after the
given number of self-calls, for any fuel. -/
def arc_wrapper_call
    (direct : PingRequest → Except TwirpErrorResponse PingResponse) :
    Nat → PingRequest → Option (Except TwirpErrorResponse PingResponse)
  | 0, _ => none
  | Nat.succ n, req => arc_wrapper_call direct n req

theorem append_ne_empty (s t : String) (h : s ≠ "") : s ++ t ≠ "" := by
  intro hc
  apply h
  apply String.ext
  have hd : s.data ++ t.data = [] := by
    have h2 := congrArg String.data hc
    rw [String.data_append] at h2
    exact h2
  exact (List.append_eq_nil.mp hd).1

theorem mem_cat_split {α : Type} (f : α → String) (m : α) :
    ∀ l : List α, m ∈ l → ∃ pre post, cat (l.map f) = pre ++ f m ++ post := by
  intro l
  induction l with
  | nil => intro h; cases h
  | cons a t ih =>
    intro hm
    rcases List.mem_cons.mp hm with h | h
    · subst h
      refine ⟨"", cat (t.map f), ?_⟩
      rw [String.empty_append]
      rfl
    · obtain ⟨p, q, hp⟩ := ih h
      refine ⟨f a ++ p, q, ?_⟩
      have hc : cat (List.map f (a :: t)) = f a ++ cat (List.map f t) := rfl
      rw [hc, hp]
      simp only [String.append_assoc]

theorem generate_router_decomp (shim : Bool) (s : Service) :
    generate shim s
      = (gen_head s ++ server_trait shim s ++ arc_impl shim s ++ router_header s)
        ++ cat (s.methods.map route_line)
        ++ (router_footer ++ "\n" ++ client_trait shim s ++ client_impl shim s) := by
  simp only [generate, router_fn, String.append_assoc]

theorem generate_arc_decomp (shim : Bool) (s : Service) :
    generate shim s
      = (gen_head s ++ server_trait shim s ++ shim_line shim
          ++ "impl<T> " ++ s.name ++ " for std::sync::Arc<T>\n"
          ++ "where\n"
          ++ "    T: " ++ s.name ++ " + Sync + Send\n"
          ++ "\x7b\n")
        ++ cat (s.methods.map arc_method_block)
        ++ ("\x7d\n" ++ router_fn s ++ "\n" ++ client_trait shim s ++ client_impl shim s) := by
  simp only [generate, arc_impl, String.append_assoc]

theorem generate_client_decomp (shim : Bool) (s : Service) :
    generate shim s
      = (gen_head s ++ server_trait shim s ++ arc_impl shim s ++ router_fn s ++ "\n"
          ++ client_trait shim s ++ shim_line shim
          ++ "impl " ++ s.name ++ "Client for twirp::client::Client \x7b\n")
        ++ cat (s.methods.map (client_method_block s))
        ++ "\x7d\n" := by
  simp only [generate, client_impl, String.append_assoc]

theorem generate_const_decomp (shim : Bool) (s : Service) :
    generate shim s
      = ("\n" ++ "pub use twirp;\n" ++ "\n")
        ++ const_line s
        ++ (server_trait shim s ++ arc_impl shim s ++ router_fn s ++ "\n"
            ++ client_trait shim s ++ client_impl shim s) := by
  simp only [generate, gen_head, String.append_assoc]

theorem generate_ne_empty (shim : Bool) (s : Service) : generate shim s ≠ "" := by
  unfold generate
  apply append_ne_empty
  apply append_ne_empty
  apply append_ne_empty
  apply append_ne_empty
  apply append_ne_empty
  apply append_ne_empty
  unfold gen_head
  apply append_ne_empty
  apply append_ne_empty
  apply append_ne_empty
  decide

/-- C1: the binding generator is deterministic — for every output buffer
and every pair of service descriptions agreeing on name, package,
proto_name and method list, `generate` appends byte-identical source text
to the buffer. -/
theorem spec_C1 (buf : String) (shim : Bool) (s1 s2 : Service)
    (hn : s1.name = s2.name) (hp : s1.package = s2.package)
    (hq : s1.proto_name = s2.proto_name) (hm : s1.methods = s2.methods) :
    generate_into buf shim s1 = generate_into buf shim s2 := by
  cases s1 with
  | mk n1 p1 q1 m1 =>
    cases s2 with
    | mk n2 p2 q2 m2 =>
      have h1 : n1 = n2 := hn
      have h2 : p1 = p2 := hp
      have h3 : q1 = q2 := hq
      have h4 : m1 = m2 := hm
      subst h1; subst h2; subst h3; subst h4
      rfl

/-- C1 witness: two field-identical copies of the fixture service
description yield byte-identical generated text. -/
theorem spec_C1_witness :
    generate_into "" true test_service = generate_into "" true test_service_copy :=
  spec_C1 "" true test_service test_service_copy rfl rfl rfl rfl

/-- C2 counterexample: for the fixture service and its Ping method, the
route path argument emitted by the generator is not
`"/" + package + "." + proto_name + "/" + wire_name`, and the path the
hand-written test router registers for Ping is not that string either. -/
theorem spec_C2_cex :
    route_path_arg ping_method
        ≠ "/" ++ test_service.package ++ "." ++ test_service.proto_name
          ++ "/" ++ ping_method.proto_name
    ∧ ("/twirp/test.TestAPI/Ping" ∈ test_api_router.paths)
    ∧ ("/twirp/test.TestAPI/Ping" : String)
        ≠ "/" ++ test_service.package ++ "." ++ test_service.proto_name
          ++ "/" ++ ping_method.proto_name := by
  decide

/-- C2 (amended): for every service description and every method in it,
the route path argument of the emitted `.route` call equals
`"/" + wire_name` (with no fully-qualified-name component), and the
hand-written test router registers the fixture methods under
`"/twirp/" + fqn + "/" + wire_name`, namely the two literal paths
below. -/
theorem spec_C2 (shim : Bool) (s : Service) (m : Method) (hm : m ∈ s.methods) :
    (∃ pre post, generate shim s
        = pre ++ (".route(\"" ++ route_path_arg m ++ "\", ") ++ post)
    ∧ route_path_arg m = "/" ++ m.proto_name
    ∧ test_api_router.paths
        = ["/twirp/test.TestAPI/Ping", "/twirp/test.TestAPI/Boom"] := by
  refine ⟨?_, rfl, rfl⟩
  obtain ⟨p, q, hpq⟩ := mem_cat_split route_line m s.methods hm
  refine ⟨(gen_head s ++ server_trait shim s ++ arc_impl shim s ++ router_header s)
            ++ p ++ "        ",
          route_line_tail m ++ q
            ++ (router_footer ++ "\n" ++ client_trait shim s ++ client_impl shim s), ?_⟩
  rw [generate_router_decomp shim s, hpq]
  simp only [route_line, String.append_assoc]

/-- C2 witness: instantiation at the fixture service and its Ping
method. -/
theorem spec_C2_witness :
    (ping_method ∈ test_service.methods)
    ∧ ((∃ pre post, generate true test_service
          = pre ++ (".route(\"" ++ route_path_arg ping_method ++ "\", ") ++ post)
       ∧ route_path_arg ping_method = "/" ++ ping_method.proto_name
       ∧ test_api_router.paths
           = ["/twirp/test.TestAPI/Ping", "/twirp/test.TestAPI/Boom"]) :=
  ⟨by decide, spec_C2 true test_service ping_method (by decide)⟩

/-- C3 counterexample: the path argument of the `self.request` call
emitted for Ping on the fixture service test.TestAPI is
`"test.TestAPI/Ping"`, which is not `"/test.TestAPI/Ping"`: the emitted
path has no leading slash. -/
theorem spec_C3_cex :
    client_request_path test_service ping_method = "test.TestAPI/Ping"
    ∧ client_request_path test_service ping_method ≠ "/test.TestAPI/Ping" := by
  decide

/-- C3 (amended): for every service description and every method in it,
the generated client implementation issues its request with path
`package + "." + proto_name + "/" + wire_name`, with no leading slash;
for Ping on test.TestAPI this is `"test.TestAPI/Ping"` (see the
witness). -/
theorem spec_C3 (shim : Bool) (s : Service) (m : Method) (hm : m ∈ s.methods) :
    (∃ pre post, generate shim s
        = pre ++ ("    self.request(\"" ++ client_request_path s m
                    ++ "\", req).await\n") ++ post)
    ∧ client_request_path s m
        = s.package ++ "." ++ s.proto_name ++ "/" ++ m.proto_name := by
  constructor
  · obtain ⟨p, q, hpq⟩ := mem_cat_split (client_method_block s) m s.methods hm
    refine ⟨(gen_head s ++ server_trait shim s ++ arc_impl shim s ++ router_fn s ++ "\n"
              ++ client_trait shim s ++ shim_line shim
              ++ "impl " ++ s.name ++ "Client for twirp::client::Client \x7b\n")
              ++ p ++ client_sig_line m,
            "    \x7d\n" ++ q ++ "\x7d\n", ?_⟩
    rw [generate_client_decomp shim s, hpq]
    simp only [client_method_block, request_line, String.append_assoc]
  · rfl

/-- C3 witness: instantiation at the fixture service and its Ping
method, with the concrete emitted path, slash-free. -/
theorem spec_C3_witness :
    (ping_method ∈ test_service.methods)
    ∧ client_request_path test_service ping_method = "test.TestAPI/Ping"
    ∧ ((∃ pre post, generate true test_service
          = pre ++ ("    self.request(\"" ++ client_request_path test_service ping_method
                      ++ "\", req).await\n") ++ post)
       ∧ client_request_path test_service ping_method
           = test_service.package ++ "." ++ test_service.proto_name
             ++ "/" ++ ping_method.proto_name) :=
  ⟨by decide, by decide, spec_C3 true test_service ping_method (by decide)⟩

/-- C4 counterexample: on a service description whose two methods share
the wire name Ping (so their route paths collide), the generator still
emits code — its output is not empty, against the claim that such input
is rejected with no code emitted. -/
theorem spec_C4_cex :
    ping_method.proto_name = dup_method.proto_name
    ∧ route_path_arg ping_method = route_path_arg dup_method
    ∧ generate true dup_service ≠ "" :=
  ⟨rfl, rfl, generate_ne_empty true dup_service⟩

/-- C4 (amended): the generator performs no duplicate-wire-name check
and has no failure path — for every service description, including one
with two methods of equal wire names, it emits nonempty code containing
one `.route` registration per method in order, so colliding wire names
are emitted as duplicate route paths rather than rejected. -/
theorem spec_C4 (shim : Bool) (s : Service) :
    generate shim s ≠ ""
    ∧ ∃ pre post, generate shim s
        = pre ++ cat (s.methods.map route_line) ++ post := by
  constructor
  · exact generate_ne_empty shim s
  · exact ⟨gen_head s ++ server_trait shim s ++ arc_impl shim s ++ router_header s,
           router_footer ++ "\n" ++ client_trait shim s ++ client_impl shim s,
           generate_router_decomp shim s⟩

/-- C5 counterexample: the value of the emitted SERVICE_FQN constant for
the fixture service is `"/test.TestAPI"`, which carries a leading slash
and therefore is not `package + "." + proto_name` with no other
characters. -/
theorem spec_C5_cex :
    SERVICE_FQN_value test_service = "/test.TestAPI"
    ∧ SERVICE_FQN_value test_service
        ≠ test_service.package ++ "." ++ test_service.proto_name := by
  decide

/-- C5 (amended): for every service description the generated source
contains the named constant SERVICE_FQN whose value is
`"/" + package + "." + proto_name` — the fully-qualified service name
preceded by a slash. -/
theorem spec_C5 (shim : Bool) (s : Service) :
    (∃ pre post, generate shim s
        = pre ++ ("pub const SERVICE_FQN: &str = \"" ++ SERVICE_FQN_value s
                    ++ "\";\n") ++ post)
    ∧ SERVICE_FQN_value s = "/" ++ (s.package ++ "." ++ s.proto_name) := by
  constructor
  · refine ⟨"\n" ++ "pub use twirp;\n" ++ "\n",
            server_trait shim s ++ arc_impl shim s ++ router_fn s ++ "\n"
              ++ client_trait shim s ++ client_impl shim s, ?_⟩
    rw [generate_const_decomp shim s]
    simp only [const_line, String.append_assoc]
  · rfl

/-- C6: for every PingRequest, the fixture server Ping handler returns
Ok with the name field equal to the request name, and never returns an
error. -/
theorem spec_C6 (req : PingRequest) :
    TestAPIServer.ping req = Except.ok { name := req.name }
    ∧ ∀ e, TestAPIServer.ping req ≠ Except.error e :=
  ⟨rfl, fun _ h => Except.noConfusion h⟩

/-- C7: for every input request, the fixture server Boom handler returns
Err with a ServerError whose code is internal and whose message is
boom!, and never returns Ok. -/
theorem spec_C7 (req : PingRequest) :
    TestAPIServer.boom req = Except.error (internal "boom!")
    ∧ (internal "boom!").code = ErrorCode.internal
    ∧ (internal "boom!").msg = "boom!"
    ∧ ∀ resp, TestAPIServer.boom req ≠ Except.ok resp :=
  ⟨rfl, rfl, rfl, fun _ h => Except.noConfusion h⟩

/-- C8: evaluation of the fixture client boom method at the failing
input — the body is the todo macro, so the call panics with the message
"not yet implemented" and never completes with an error value such as
BadStatus. -/
theorem spec_C8 :
    TwirpClient.boom { name := "alice" }
        = ClientCallOutcome.panicked "not yet implemented"
    ∧ ∀ e, TwirpClient.boom { name := "alice" } ≠ ClientCallOutcome.err e :=
  ⟨rfl, fun _ h => ClientCallOutcome.noConfusion h⟩

/-- C9: evaluation of the generated Arc delegation wrapper at the
failing input — the emitted wrapper body appears in the generated text
as `(*self).ping(ctx, req).await`, which resolves to the wrapper itself,
so for every amount of fuel the wrapper call produces no result, while
the direct call on the underlying TestAPIServer returns Ok; the wrapper
therefore never returns the Result of the direct invocation. -/
theorem spec_C9 :
    (∃ pre post, generate true test_service
        = pre ++ ("        (*self)." ++ ping_method.name ++ "(ctx, req).await\n") ++ post)
    ∧ (∀ fuel req, arc_wrapper_call TestAPIServer.ping fuel req = none)
    ∧ TestAPIServer.ping { name := "alice" } = Except.ok { name := "alice" }
    ∧ ∀ fuel, arc_wrapper_call TestAPIServer.ping fuel { name := "alice" }
        ≠ some (TestAPIServer.ping { name := "alice" }) := by
  have hall : ∀ fuel req, arc_wrapper_call TestAPIServer.ping fuel req = none := by
    intro fuel
    induction fuel with
    | zero => intro req; rfl
    | succ n ih =>
      intro req
      simp only [arc_wrapper_call]
      exact ih req
  refine ⟨?_, hall, rfl, ?_⟩
  · obtain ⟨p, q, hpq⟩ :=
      mem_cat_split arc_method_block ping_method test_service.methods (by decide)
    refine ⟨(gen_head test_service ++ server_trait true test_service ++ shim_line true
              ++ "impl<T> " ++ test_service.name ++ " for std::sync::Arc<T>\n"
              ++ "where\n"
              ++ "    T: " ++ test_service.name ++ " + Sync + Send\n"
              ++ "\x7b\n")
              ++ p ++ arc_sig_line ping_method,
            "    \x7d\n" ++ q
              ++ ("\x7d\n" ++ router_fn test_service ++ "\n"
                  ++ client_trait true test_service ++ client_impl true test_service), ?_⟩
    rw [generate_arc_decomp true test_service, hpq]
    simp only [arc_method_block, String.append_assoc]
  · intro fuel h
    rw [hall fuel _] at h
    exact Option.noConfusion h

/-- C10: the fixture client ping_url joins the base URL with the
relative path "twirp/test.testAPI/Ping" (lowercase testAPI); the
resulting path differs, case-sensitively, from the path
"/twirp/test.TestAPI/Ping" under which the fixture router registers the
Ping handler, so exact-match dispatch on the client-built path finds no
route, while the registered path dispatches to the Ping handler. -/
theorem spec_C10 :
    ping_url_path = "/" ++ ping_url_relative
    ∧ ping_url_relative = "twirp/test.testAPI/Ping"
    ∧ ping_url_path ≠ "/twirp/test.TestAPI/Ping"
    ∧ ("/twirp/test.TestAPI/Ping" ∈ test_api_router.paths)
    ∧ (∀ req, Router.dispatch test_api_router ping_url_path req = none)
    ∧ (∀ req, Router.dispatch test_api_router "/twirp/test.TestAPI/Ping" req
          = some (TestAPIServer.ping req)) := by
  refine ⟨rfl, rfl, by decide, by decide, fun req => rfl, fun req => rfl⟩
